import Mathlib

/-!
Verification development for the `eng-to-tel` repository: an English-to-Telugu
pronunciation tool consisting of a batch script (`get_accent_word.py`) and an
interactive form (`streamlit_app.py`).  Both scripts share a "Pronunciation
Fetcher" (`get_pronunciation`) that posts a prompt to a completion endpoint and
parses a JSON object out of the text response.

The embedding below models:
- Python JSON values and `json.loads` (strict JSON parsing),
- Python `str.strip()` and `str.strip("\x60\x60\x60")` (character-set strip),
- the two `get_pronunciation` variants, driven by an explicit model of the
  outcome of the `requests.post` call (a returned response or a raised
  exception),
- the top-level startup gating on the `API_KEY` environment variable,
- the interactive form's input splitting, processing loop and counters.
-/

/-! ## JSON values

Model of the values produced by Python `json.loads`: null, booleans, numbers,
strings, arrays, and objects (ordered key/value lists; later duplicate keys
overwrite the stored value in place, as Python dicts do).  A number is stored
as a mantissa and a decimal exponent; the distinction between int and float is
irrelevant to every claim below. -/
inductive Json where
  | null : Json
  | bool (b : Bool) : Json
  | num (mantissa : Int) (exp10 : Int) : Json
  | str (s : String) : Json
  | arr (elems : List Json) : Json
  | obj (members : List (String × Json)) : Json
deriving Repr

/-- First-match lookup in an object's member list.  The parser keeps keys
unique (see `upsert`), so first match equals Python dict lookup. -/
def getKey : List (String × Json) → String → Option Json
  | [], _ => none
  | (k, v) :: rest, key => if k = key then some v else getKey rest key

/-- Insert a member, overwriting in place when the key is already present
(Python dict semantics for duplicate keys in a JSON text: last value wins,
first position kept). -/
def upsert : List (String × Json) → String → Json → List (String × Json)
  | [], k, v => [(k, v)]
  | (k', v') :: rest, k, v =>
    if k' = k then (k, v) :: rest else (k', v') :: upsert rest k v

/-! ## Python string stripping

`str.strip()` removes leading and trailing Unicode whitespace;
`str.strip(chars)` removes leading and trailing characters drawn from the set
of characters of `chars` — so `s.strip("\x60\x60\x60")` removes every leading
and trailing backtick, not only exact triple fences. -/

/-- The backtick character. -/
def backtickC : Char := Char.ofNat 96

/-- Opening brace character. -/
def lbraceC : Char := Char.ofNat 123

/-- Closing brace character. -/
def rbraceC : Char := Char.ofNat 125

/-- Characters removed by Python `str.strip()`: exactly the characters for
which `str.isspace()` holds (ASCII whitespace, the C1 separator controls,
NEL, NBSP, and the Unicode space separators). -/
def isPyWs (c : Char) : Bool :=
  let n := c.toNat
  decide ((9 ≤ n ∧ n ≤ 13) ∨ (28 ≤ n ∧ n ≤ 32) ∨ n = 133 ∨ n = 160 ∨
    n = 5760 ∨ (8192 ≤ n ∧ n ≤ 8202) ∨ n = 8232 ∨ n = 8233 ∨ n = 8239 ∨
    n = 8287 ∨ n = 12288)

/-- Is this character a backtick (the only element of the character set of
the Python literal passed to the second `strip`)? -/
def isBk (c : Char) : Bool := c == backtickC

/-- Remove the longest prefix and suffix of characters satisfying `p`
(the semantics of Python `str.strip(chars)` with `p` = membership in
`chars`). -/
def stripIf (p : Char → Bool) (s : String) : String :=
  String.mk (((s.data.dropWhile p).reverse.dropWhile p).reverse)

/-- Python `s.strip()`. -/
def pyStrip (s : String) : String := stripIf isPyWs s

/-- Python `s.strip("\x60\x60\x60")`: removes all leading/trailing
backticks. -/
def stripBk (s : String) : String := stripIf isBk s

/-- The Fetcher's cleanup of the completion text (both variants, identical
line): `output_text.strip().strip("\x60\x60\x60").strip()`. -/
def cleanText (s : String) : String := pyStrip (stripBk (pyStrip s))

/-! ## Strict JSON parsing (model of Python `json.loads`)

A fuel-indexed recursive-descent parser.  JSON whitespace is only space, tab,
newline and carriage return.  Strings support the JSON escapes including
`\uXXXX`; unescaped control characters are rejected; numbers follow the JSON
grammar (no leading zeros, optional fraction and exponent).  `json.loads`
accepts any top-level value and requires the whole input to be consumed. -/

/-- JSON whitespace (the only characters `json.loads` skips between
tokens). -/
def isJsonWs (c : Char) : Bool :=
  c == ' ' || c == '\t' || c == '\n' || c == '\r'

/-- Hex digit value. -/
def hexVal (c : Char) : Option Nat :=
  if '0' ≤ c ∧ c ≤ '9' then some (c.toNat - 48)
  else if 'a' ≤ c ∧ c ≤ 'f' then some (c.toNat - 87)
  else if 'A' ≤ c ∧ c ≤ 'F' then some (c.toNat - 55)
  else none

/-- Accumulate decimal digits into a natural number. -/
def digitsToNat : List Char → Nat → Nat
  | [], acc => acc
  | c :: cs, acc => digitsToNat cs (acc * 10 + (c.toNat - 48))

/-- Body of a JSON string literal, after the opening quote.  `fuel` bounds
recursion; callers supply at least the remaining input length. -/
def parseStrAux : Nat → List Char → List Char → Option (String × List Char)
  | 0, _, _ => none
  | Nat.succ f, acc, cs =>
    match cs with
    | [] => none
    | c :: rest =>
      if c = '"' then some (String.mk acc.reverse, rest)
      else if c = '\\' then
        match rest with
        | [] => none
        | e :: r2 =>
          if e = '"' then parseStrAux f ('"' :: acc) r2
          else if e = '\\' then parseStrAux f ('\\' :: acc) r2
          else if e = '/' then parseStrAux f ('/' :: acc) r2
          else if e = 'b' then parseStrAux f (Char.ofNat 8 :: acc) r2
          else if e = 'f' then parseStrAux f (Char.ofNat 12 :: acc) r2
          else if e = 'n' then parseStrAux f ('\n' :: acc) r2
          else if e = 'r' then parseStrAux f ('\r' :: acc) r2
          else if e = 't' then parseStrAux f ('\t' :: acc) r2
          else if e = 'u' then
            match r2 with
            | h1 :: h2 :: h3 :: h4 :: r3 =>
              match hexVal h1, hexVal h2, hexVal h3, hexVal h4 with
              | some a, some b, some c2, some d =>
                parseStrAux f (Char.ofNat (((a * 16 + b) * 16 + c2) * 16 + d) :: acc) r3
              | _, _, _, _ => none
            | _ => none
          else none
      else if c.toNat < 32 then none
      else parseStrAux f (c :: acc) rest

/-- Build the number value from sign, digits and decimal exponent. -/
def mkNum (neg : Bool) (ds : List Char) (scale : Int) : Json :=
  let m : Int := (digitsToNat ds 0 : Nat)
  Json.num (if neg then -m else m) scale

/-- Optional exponent part of a JSON number, then finish. -/
def finishNum (neg : Bool) (ds : List Char) (scale : Int) (rest : List Char) :
    Option (Json × List Char) :=
  match rest with
  | c :: r1 =>
    if c = 'e' ∨ c = 'E' then
      let signAndRest : Int × List Char :=
        match r1 with
        | d :: rr => if d = '+' then (1, rr) else if d = '-' then (-1, rr) else (1, r1)
        | [] => (1, r1)
      let ed := signAndRest.2.takeWhile Char.isDigit
      let r3 := signAndRest.2.dropWhile Char.isDigit
      if ed = [] then none
      else some (mkNum neg ds (scale + signAndRest.1 * (digitsToNat ed 0 : Nat)), r3)
    else some (mkNum neg ds scale, rest)
  | [] => some (mkNum neg ds scale, [])

/-- A JSON number starting at `cs` (JSON grammar: optional minus, integer
part without leading zeros, optional fraction, optional exponent). -/
def parseNumber (cs : List Char) : Option (Json × List Char) :=
  let signSplit : Bool × List Char :=
    match cs with
    | c :: r => if c = '-' then (true, r) else (false, cs)
    | [] => (false, [])
  let ip := signSplit.2.takeWhile Char.isDigit
  let r1 := signSplit.2.dropWhile Char.isDigit
  if ip = [] then none
  else if ip.head? = some '0' ∧ ip.length ≠ 1 then none
  else
    match r1 with
    | c :: r2 =>
      if c = '.' then
        let fp := r2.takeWhile Char.isDigit
        let r3 := r2.dropWhile Char.isDigit
        if fp = [] then none
        else finishNum signSplit.1 (ip ++ fp) (-(fp.length : Int)) r3
      else finishNum signSplit.1 ip 0 r1
    | [] => finishNum signSplit.1 ip 0 r1

mutual

/-- A JSON value (after skipping leading whitespace), with remaining input. -/
def parseVal : Nat → List Char → Option (Json × List Char)
  | 0, _ => none
  | Nat.succ f, cs =>
    match cs.dropWhile isJsonWs with
    | [] => none
    | c :: rest =>
      if c = '"' then
        match parseStrAux f [] rest with
        | some (s, r) => some (Json.str s, r)
        | none => none
      else if c = lbraceC then
        match rest.dropWhile isJsonWs with
        | d :: r2 =>
          if d = rbraceC then some (Json.obj [], r2)
          else parseMembers f [] (d :: r2)
        | [] => none
      else if c = '[' then
        match rest.dropWhile isJsonWs with
        | d :: r2 =>
          if d = ']' then some (Json.arr [], r2)
          else parseElems f [] (d :: r2)
        | [] => none
      else if c = 't' then
        match rest with
        | 'r' :: 'u' :: 'e' :: r => some (Json.bool true, r)
        | _ => none
      else if c = 'f' then
        match rest with
        | 'a' :: 'l' :: 's' :: 'e' :: r => some (Json.bool false, r)
        | _ => none
      else if c = 'n' then
        match rest with
        | 'u' :: 'l' :: 'l' :: r => some (Json.null, r)
        | _ => none
      else parseNumber (c :: rest)

/-- Object members after the opening brace (input known non-empty of a
non-brace first token). -/
def parseMembers : Nat → List (String × Json) → List Char →
    Option (Json × List Char)
  | 0, _, _ => none
  | Nat.succ f, acc, cs =>
    match cs.dropWhile isJsonWs with
    | [] => none
    | c :: rest =>
      if c = '"' then
        match parseStrAux f [] rest with
        | some (k, r1) =>
          match r1.dropWhile isJsonWs with
          | ':' :: r2 =>
            match parseVal f r2 with
            | some (v, r3) =>
              match r3.dropWhile isJsonWs with
              | ',' :: r4 => parseMembers f (upsert acc k v) r4
              | d :: r4 =>
                if d = rbraceC then some (Json.obj (upsert acc k v), r4)
                else none
              | [] => none
            | none => none
          | _ => none
        | none => none
      else none

/-- Array elements after the opening bracket. -/
def parseElems : Nat → List Json → List Char → Option (Json × List Char)
  | 0, _, _ => none
  | Nat.succ f, acc, cs =>
    match parseVal f cs with
    | some (v, r1) =>
      match r1.dropWhile isJsonWs with
      | ',' :: r2 => parseElems f (v :: acc) r2
      | d :: r2 => if d = ']' then some (Json.arr (v :: acc).reverse, r2) else none
      | [] => none
    | none => none

end

/-- Model of Python `json.loads`: parse one value and require that only
whitespace follows.  The fuel `4 * length + 8` dominates the recursion depth
(every recursive call either consumes input or is one of at most three
fuel-only handoffs per consumed character). -/
def parseJson (s : String) : Option Json :=
  match parseVal (4 * s.data.length + 8) s.data with
  | some (j, rest) => if rest.dropWhile isJsonWs = [] then some j else none
  | none => none


/-! ## The Pronunciation Fetcher

`get_pronunciation` in both scripts.  The outcome of the single
`requests.post` call is an explicit input: either the call raised a Python
exception, or it returned a response with a status code and a body text
(`response.text`; `response.json()` is modelled as `parseJson` of that
text). -/

/-- Python exceptions relevant to the two scripts. -/
inductive PyExn where
  | timeout : PyExn
  | connectionError (msg : String) : PyExn
  | valueError (msg : String) : PyExn
  | lookupErr (msg : String) : PyExn
  | jsonDecodeErr (msg : String) : PyExn
  | otherExn (msg : String) : PyExn
deriving Repr, DecidableEq

/-- Diagnostic text of an exception (Python `str(e)`). -/
def exnMsg : PyExn → String
  | PyExn.timeout => "timeout"
  | PyExn.connectionError m => m
  | PyExn.valueError m => m
  | PyExn.lookupErr m => m
  | PyExn.jsonDecodeErr m => m
  | PyExn.otherExn m => m

/-- What the `requests.post` call did: raised, or returned a response. -/
inductive HttpOutcome where
  | raises (e : PyExn) : HttpOutcome
  | response (status : Nat) (body : String) : HttpOutcome
deriving Repr, DecidableEq

/-- `result["choices"][0]["text"]`: the first completion's text, when the
parsed response body has that shape (otherwise Python raises a
KeyError/IndexError/TypeError at this line). -/
def extractChoiceText (body : Json) : Option String :=
  match body with
  | Json.obj kvs =>
    match getKey kvs "choices" with
    | some (Json.arr (c :: _)) =>
      match c with
      | Json.obj ckvs =>
        match getKey ckvs "text" with
        | some (Json.str t) => some t
        | _ => none
      | _ => none
    | _ => none
  | _ => none

/-- The fixed model identifier (both scripts). -/
def MODEL : String := "meta-llama/Llama-3-70b-chat-hf"

/-- The fixed completion endpoint URL (both scripts). -/
def apiUrl : String := "https://api.together.xyz/completions"

/-- The outbound HTTP call as constructed by a script: URL, bearer header,
JSON body fields, and the `timeout=` keyword argument passed to
`requests.post` (`none` when the call site passes no timeout). -/
structure RequestCall where
  url : String
  authBearer : String
  modelName : String
  promptText : String
  maxTokens : Nat
  temperature : Nat
  timeoutSeconds : Option Nat
deriving Repr, DecidableEq

/-- The prompt built by `get_accent_word.get_pronunciation` (f-string with
the word interpolated at the end; note the source's "NNote" typo). -/
def batchPrompt (word : String) : String :=
  "\nYou are a language assistant. I will provide an English word. Your task is to:\n\n" ++
  "1. Convert the English word into its correct pronunciation in English in USA style (like Toilet: 'TOy Luht').\n" ++
  "2. Convert that pronunciation into a Telugu representation of the sounds.\n\n" ++
  "Respond in JSON format as shown in the example.\n\n" ++
  "Example input: 'toilet'\nExample output:\n\x7b\n  \"word\": \"toilet\",\n  \"pronunciation\": \"TOy Luht\",\n  \"pronunciation_telugu\": \"టాయ్ లహ్ట్\"\n\x7d\n\n" ++
  "NNote: Do not include any additional text or explanations, only the JSON object. Do not include any markdown formatting. Ensure the Telugu representation captures the phonetic sounds accurately.\n" ++
  "Now process the following word: '" ++ word ++ "'\n"

/-- The prompt built by `streamlit_app.get_pronunciation` (identical except
the typo is "Note"). -/
def interactivePrompt (word : String) : String :=
  "\nYou are a language assistant. I will provide an English word. Your task is to:\n\n" ++
  "1. Convert the English word into its correct pronunciation in English in USA style (like Toilet: 'TOy Luht').\n" ++
  "2. Convert that pronunciation into a Telugu representation of the sounds.\n\n" ++
  "Respond in JSON format as shown in the example.\n\n" ++
  "Example input: 'toilet'\nExample output:\n\x7b\n  \"word\": \"toilet\",\n  \"pronunciation\": \"TOy Luht\",\n  \"pronunciation_telugu\": \"టాయ్ లహ్ట్\"\n\x7d\n\n" ++
  "Note: Do not include any additional text or explanations, only the JSON object. Do not include any markdown formatting. Ensure the Telugu representation captures the phonetic sounds accurately.\n" ++
  "Now process the following word: '" ++ word ++ "'\n"

/-- The request issued by the batch script: `requests.post(url, headers=...,
json=data)` with NO `timeout=` argument (`get_accent_word.py` line 50). -/
def batchRequest (apiKey word : String) : RequestCall :=
  { url := apiUrl, authBearer := "Bearer " ++ apiKey, modelName := MODEL,
    promptText := batchPrompt word, maxTokens := 200, temperature := 0,
    timeoutSeconds := none }

/-- The request issued by the interactive script: `requests.post(url,
headers=..., json=data, timeout=30)` (`streamlit_app.py` line 113). -/
def interactiveRequest (apiKey word : String) : RequestCall :=
  { url := apiUrl, authBearer := "Bearer " ++ apiKey, modelName := MODEL,
    promptText := interactivePrompt word, maxTokens := 200, temperature := 0,
    timeoutSeconds := some 30 }

/-- `get_pronunciation` of `get_accent_word.py`.  There is no try/except in
this variant: an exception raised by `requests.post`, by `response.json()`,
or by the `result["choices"][0]["text"]` extraction propagates to the caller
(modelled as `Except.error`).  Only the non-200 branch and the JSON-parse
failure are returned as data. -/
def batch_get_pronunciation (word : String) (out : HttpOutcome) :
    Except PyExn Json :=
  match out with
  | HttpOutcome.raises e => Except.error e
  | HttpOutcome.response status body =>
    if status = 200 then
      match parseJson body with
      | none => Except.error (PyExn.jsonDecodeErr "response body is not valid JSON")
      | some result =>
        match extractChoiceText result with
        | none => Except.error (PyExn.lookupErr "missing choices[0].text")
        | some output_text =>
          match parseJson (cleanText output_text) with
          | some parsed => Except.ok parsed
          | none =>
            Except.ok (Json.obj
              [("error", Json.str "Failed to parse JSON from LLM output"),
               ("raw_output", Json.str output_text)])
    else
      Except.ok (Json.obj
        [("error", Json.str ("API request failed with status " ++ toString status)),
         ("details", Json.str body)])

/-- `get_pronunciation` of `streamlit_app.py`.  The whole body is wrapped in
try/except with handlers for `requests.exceptions.Timeout`,
`requests.exceptions.ConnectionError` and a catch-all `Exception`, so this
variant always returns a value.  The `details` strings of the two modelled
catch-all cases on the 200-path stand for Python's `str(e)` of the exception
raised by `response.json()` or by the `choices[0]["text"]` extraction. -/
def interactive_get_pronunciation (word : String) (out : HttpOutcome) : Json :=
  match out with
  | HttpOutcome.raises PyExn.timeout =>
    Json.obj [("error", Json.str "Request timeout"), ("word", Json.str word)]
  | HttpOutcome.raises (PyExn.connectionError m) =>
    Json.obj [("error", Json.str "Connection error"), ("details", Json.str m),
              ("word", Json.str word)]
  | HttpOutcome.raises e =>
    Json.obj [("error", Json.str "Unexpected error"),
              ("details", Json.str (exnMsg e)), ("word", Json.str word)]
  | HttpOutcome.response status body =>
    if status = 200 then
      match parseJson body with
      | none =>
        Json.obj [("error", Json.str "Unexpected error"),
                  ("details", Json.str "response body is not valid JSON"),
                  ("word", Json.str word)]
      | some result =>
        match extractChoiceText result with
        | none =>
          Json.obj [("error", Json.str "Unexpected error"),
                    ("details", Json.str "missing choices[0].text"),
                    ("word", Json.str word)]
        | some output_text =>
          match parseJson (cleanText output_text) with
          | some parsed => parsed
          | none =>
            Json.obj [("error", Json.str "Failed to parse JSON from LLM output"),
                      ("raw_output", Json.str output_text),
                      ("word", Json.str word)]
    else
      Json.obj [("error", Json.str ("API request failed with status " ++ toString status)),
                ("details", Json.str body), ("word", Json.str word)]

/-- The success path of either fetcher: a 200 response whose body yields a
completion text whose cleaned form parses as JSON; the parsed value.  `none`
exactly when the fetcher takes one of its error paths. -/
def successParse (out : HttpOutcome) : Option Json :=
  match out with
  | HttpOutcome.raises _ => none
  | HttpOutcome.response status body =>
    if status = 200 then
      match parseJson body with
      | none => none
      | some result =>
        match extractChoiceText result with
        | none => none
        | some output_text => parseJson (cleanText output_text)
    else none

/-- Does this value have an `error` key (and is it a JSON object at all)? -/
def hasErrKey (j : Json) : Bool :=
  match j with
  | Json.obj kvs => (getKey kvs "error").isSome
  | _ => false

/-- The `word` field of a returned object, when present. -/
def jsonWordField (j : Json) : Option Json :=
  match j with
  | Json.obj kvs => getKey kvs "word"
  | _ => none

/-! ## Startup gating on API_KEY -/

/-- Top-level startup of `get_accent_word.py`: `API_KEY = os.getenv(...)`;
if falsy, `raise ValueError(...)` — nothing below it runs. -/
def batchStartup (apiKey : Option String) : Except PyExn String :=
  match apiKey with
  | none =>
    Except.error (PyExn.valueError
      "API_KEY not found in environment variables. Please set it in the .env file.")
  | some k => Except.ok k

/-- The `for w in words` loop of the batch script: sequential calls, results
collected in order; an exception escaping `get_pronunciation` aborts the
whole loop (and the script) before the output file is written. -/
def runBatchWords : List String → (String → HttpOutcome) → Except PyExn (List Json)
  | [], _ => Except.ok []
  | w :: ws, outs =>
    match batch_get_pronunciation w (outs w) with
    | Except.error e => Except.error e
    | Except.ok j =>
      match runBatchWords ws outs with
      | Except.error e => Except.error e
      | Except.ok js => Except.ok (j :: js)

/-- The whole batch script: startup gating, then the fixed word list. -/
def batchMain (apiKey : Option String) (outs : String → HttpOutcome) :
    Except PyExn (List Json) :=
  match batchStartup apiKey with
  | Except.error e => Except.error e
  | Except.ok _ => runBatchWords ["toilet", "computer", "water"] outs

/-- Streamlit page state after the configuration check: `st.stop()` halts
the script before the form is rendered when API_KEY is absent. -/
inductive UiState where
  | halted (errMsg : String) : UiState
  | formReady : UiState
deriving Repr, DecidableEq

/-- Top-level configuration check of `streamlit_app.py` (lines 49-53). -/
def interactiveStartup (apiKey : Option String) : UiState :=
  match apiKey with
  | none => UiState.halted "API_KEY not found. Please contact the administrator."
  | some _ => UiState.formReady

/-! ## The interactive form

Input splitting (`streamlit_app.py` line 176), the processing loop with its
success/failure counters (lines 183-218), and the warning branch for an
empty word list. -/

/-- Python `s.split(",")` on character lists: every comma separates, empty
pieces are kept (`"a,,b"` gives three pieces, `""` gives one). -/
def splitCommaAux : List Char → List Char → List (List Char)
  | [], acc => [acc.reverse]
  | c :: cs, acc =>
    if c = ',' then acc.reverse :: splitCommaAux cs []
    else splitCommaAux cs (c :: acc)

/-- `[w.strip() for w in words_input.split(",") if w.strip()]`: split on
commas, strip each piece, drop pieces that strip to the empty string. -/
def parseWords (wordsInput : String) : List String :=
  (((splitCommaAux wordsInput.data []).map
    (fun l => pyStrip (String.mk l)))).filter (fun w => w != "")

/-- Boolean `a` is a contiguous leading block of `b` (character lists). -/
def startsWithCL : List Char → List Char → Bool
  | [], _ => true
  | _ :: _, [] => false
  | a :: as, b :: bs => (a == b) && startsWithCL as bs

/-- Does `needle` occur contiguously anywhere in `hay`?  (Python `in` on
strings.) -/
def containsSub (needle : List Char) : List Char → Bool
  | [] => startsWithCL needle []
  | c :: cs => startsWithCL needle (c :: cs) || containsSub needle cs

/-- Is some element of the list the string "error"?  (Python `"error" in
someList`; `==` between a str and a non-str JSON value is False.) -/
def listHasErrorStr : List Json → Bool
  | [] => false
  | Json.str s :: rest => (s == "error") || listHasErrorStr rest
  | _ :: rest => listHasErrorStr rest

/-- Result of the Python expression `"error" in output`: key lookup on a
dict, membership on a list, substring test on a str — and a TypeError on a
non-container value (int, float, bool, None). -/
inductive MemTest where
  | yes : MemTest
  | no : MemTest
  | typeErr : MemTest
deriving Repr, DecidableEq

/-- Evaluate `"error" in output` for a JSON-decoded value. -/
def errorIn (j : Json) : MemTest :=
  match j with
  | Json.obj kvs => if (getKey kvs "error").isSome then MemTest.yes else MemTest.no
  | Json.arr xs => if listHasErrorStr xs then MemTest.yes else MemTest.no
  | Json.str s => if containsSub "error".data s.data then MemTest.yes else MemTest.no
  | _ => MemTest.typeErr

/-- One iteration of the form's loop (`streamlit_app.py` lines 191-212):
call the fetcher, append the output, test `"error" in output`; if that test
itself raises, the catch-all appends a "Critical processing error" record as
well (the fetched output has already been appended) and counts a failure.
Returns (appended outputs, successes, failures) for the whole list. -/
def runFormLoop (outs : Nat → HttpOutcome) : List String → Nat →
    List Json × (Nat × Nat)
  | [], _ => ([], (0, 0))
  | w :: ws, idx =>
    let output := interactive_get_pronunciation w (outs idx)
    let step : List Json × (Nat × Nat) :=
      match errorIn output with
      | MemTest.yes => ([output], (0, 1))
      | MemTest.no => ([output], (1, 0))
      | MemTest.typeErr =>
        ([output,
          Json.obj [("error", Json.str "Critical processing error"),
                    ("details", Json.str "argument of type is not iterable"),
                    ("word", Json.str w)]], (0, 1))
    let rest := runFormLoop outs ws (idx + 1)
    (step.1 ++ rest.1, (step.2.1 + rest.2.1, step.2.2 + rest.2.2))

/-- What one trigger of the form displays: whether the empty-input warning
was shown, the accumulated output list, the two counters, and how many
fetcher calls were made. -/
structure FormResult where
  warned : Bool
  outputs : List Json
  successful : Nat
  failed : Nat
  fetchCalls : Nat
deriving Repr

/-- The Convert-button handler (`streamlit_app.py` lines 172-232): split the
input; if no words remain, warn and do nothing; otherwise run the loop (one
fetcher call per word) and display outputs and counters. -/
def formRun (wordsInput : String) (outs : Nat → HttpOutcome) : FormResult :=
  let words := parseWords wordsInput
  if words.isEmpty then
    { warned := true, outputs := [], successful := 0, failed := 0, fetchCalls := 0 }
  else
    let r := runFormLoop outs words 0
    { warned := false, outputs := r.1, successful := r.2.1, failed := r.2.2,
      fetchCalls := words.length }

/-- Every fetched value in a run of the loop is a JSON object (dict). -/
def allObjsFrom (outs : Nat → HttpOutcome) : List String → Nat → Bool
  | [], _ => true
  | w :: ws, idx =>
    (match interactive_get_pronunciation w (outs idx) with
     | Json.obj _ => true
     | _ => false) && allObjsFrom outs ws (idx + 1)

/-! ## Auxiliary predicates and concrete response bodies -/

/-- Does a value have this key (and is it an object)? -/
def hasKeyJ (j : Json) (k : String) : Bool :=
  match j with
  | Json.obj kvs => (getKey kvs k).isSome
  | _ => false

/-- The first and last characters of the string are neither whitespace nor
backticks (the string carries no surrounding whitespace or fencing). -/
def edgeClean (s : String) : Bool :=
  (match s.data.head? with
   | some c => !isPyWs c && !isBk c
   | none => true) &&
  (match s.data.getLast? with
   | some c => !isPyWs c && !isBk c
   | none => true)

/-- A 200-response body whose completion text is `not json at all`. -/
def bodyNotJson : String :=
  "\x7b\"choices\": [\x7b\"text\": \"not json at all\"\x7d]\x7d"

/-- A 200-response body whose completion text is a valid JSON object with a
single key `foo` — valid JSON, but neither of the two documented result
shapes. -/
def bodyFoo : String :=
  "\x7b\"choices\": [\x7b\"text\": \"\x7b\\\"foo\\\": 1\x7d\"\x7d]\x7d"

/-- A 200-response body whose completion text is a JSON object wrapped in
SINGLE backticks. -/
def bodySingleBk : String :=
  "\x7b\"choices\": [\x7b\"text\": \"\x60\x7b\\\"a\\\": 1\x7d\x60\"\x7d]\x7d"

/-- A 200-response body whose completion text is the bare number `42`
(valid JSON that decodes to a Python int). -/
def body42 : String :=
  "\x7b\"choices\": [\x7b\"text\": \"42\"\x7d]\x7d"


/-! ## Helper lemmas about stripping -/

/-- `dropWhile` is the identity when the first character does not satisfy
the predicate. -/
theorem dropWhile_id_of_head (p : Char → Bool) (l : List Char)
    (h : ∀ c, l.head? = some c → p c = false) : l.dropWhile p = l := by
  cases l with
  | nil => rfl
  | cons a as =>
    have ha : p a = false := h a rfl
    simp [List.dropWhile_cons, ha]

/-- The head of `dropWhile p l` never satisfies `p`. -/
theorem head_dropWhile_not (p : Char → Bool) (l : List Char) :
    ∀ c, (l.dropWhile p).head? = some c → p c = false := by
  induction l with
  | nil => intro c h; simp [List.dropWhile] at h
  | cons a as ih =>
    intro c h
    rw [List.dropWhile_cons] at h
    by_cases hp : p a = true
    · rw [if_pos hp] at h
      exact ih c h
    · rw [if_neg hp] at h
      simp only [List.head?_cons, Option.some.injEq] at h
      rw [← h]
      exact Bool.not_eq_true _ |>.mp hp

/-- `dropWhile` keeps the last element (when the result is non-empty). -/
theorem getLast?_dropWhile (p : Char → Bool) (l : List Char) :
    ∀ c, (l.dropWhile p).getLast? = some c → l.getLast? = some c := by
  induction l with
  | nil => intro c h; simp [List.dropWhile] at h
  | cons a as ih =>
    intro c h
    rw [List.dropWhile_cons] at h
    by_cases hp : p a = true
    · rw [if_pos hp] at h
      have has := ih c h
      cases as with
      | nil => simp at has
      | cons b bs => rw [List.getLast?_cons_cons]; exact has
    · rwa [if_neg hp] at h

/-- `stripIf` is the identity on a string whose first and last characters do
not satisfy the predicate. -/
theorem stripIf_id (p : Char → Bool) (s : String)
    (h1 : ∀ c, s.data.head? = some c → p c = false)
    (h2 : ∀ c, s.data.getLast? = some c → p c = false) : stripIf p s = s := by
  unfold stripIf
  rw [dropWhile_id_of_head p s.data h1]
  rw [dropWhile_id_of_head p s.data.reverse
    (by intro c hc; rw [List.head?_reverse] at hc; exact h2 c hc)]
  rw [List.reverse_reverse]

/-- After `stripIf p`, neither the first nor the last character satisfies
`p`: the strip removes every leading and trailing such character. -/
theorem stripIf_noEdges (p : Char → Bool) (s : String) :
    (∀ c, (stripIf p s).data.head? = some c → p c = false) ∧
    (∀ c, (stripIf p s).data.getLast? = some c → p c = false) := by
  unfold stripIf
  constructor
  · intro c hc
    simp only [List.head?_reverse] at hc
    have h2 := getLast?_dropWhile p (s.data.dropWhile p).reverse c hc
    rw [List.getLast?_reverse] at h2
    exact head_dropWhile_not p s.data c h2
  · intro c hc
    simp only [List.getLast?_reverse] at hc
    exact head_dropWhile_not p (s.data.dropWhile p).reverse c hc

/-! ## Helper lemmas about the interactive fetcher -/

/-- On every non-success outcome, the interactive fetcher returns an object
carrying an `error` key and a `word` key equal to the input word. -/
theorem interactive_fail_shape (w : String) (out : HttpOutcome)
    (h : successParse out = none) :
    hasErrKey (interactive_get_pronunciation w out) = true ∧
    jsonWordField (interactive_get_pronunciation w out) = some (Json.str w) := by
  cases out with
  | raises e => cases e <;> exact ⟨rfl, rfl⟩
  | response status body =>
    simp only [successParse] at h
    simp only [interactive_get_pronunciation]
    by_cases hs : status = 200
    · rw [if_pos hs] at h ⊢
      cases hb : parseJson body with
      | none => simp only [hb]; exact ⟨rfl, rfl⟩
      | some result =>
        simp only [hb] at h ⊢
        cases he : extractChoiceText result with
        | none => simp only [he]; exact ⟨rfl, rfl⟩
        | some t =>
          simp only [he] at h ⊢
          cases hp : parseJson (cleanText t) with
          | none => simp only [hp]; exact ⟨rfl, rfl⟩
          | some j => simp [hp] at h
    · rw [if_neg hs]
      exact ⟨rfl, rfl⟩

/-- On the success outcome, the interactive fetcher returns the parsed value
unchanged (no shape validation). -/
theorem interactive_success_shape (w : String) (out : HttpOutcome) (j : Json)
    (h : successParse out = some j) :
    interactive_get_pronunciation w out = j := by
  cases out with
  | raises e => simp [successParse] at h
  | response status body =>
    simp only [successParse] at h
    simp only [interactive_get_pronunciation]
    by_cases hs : status = 200
    · rw [if_pos hs] at h ⊢
      cases hb : parseJson body with
      | none => simp [hb] at h
      | some result =>
        simp only [hb] at h ⊢
        cases he : extractChoiceText result with
        | none => simp [he] at h
        | some t =>
          simp only [he] at h ⊢
          cases hp : parseJson (cleanText t) with
          | none => simp [hp] at h
          | some j2 =>
            simp only [hp, Option.some.injEq] at h ⊢
            exact h
    · rw [if_neg hs] at h
      simp at h

/-! ## Helper lemma about the form loop -/

/-- When every fetched value is a JSON object, the loop appends exactly one
output per word, the counters sum to the word count, and the failure counter
equals the number of outputs carrying an `error` key. -/
theorem runFormLoop_invariant (outs : Nat → HttpOutcome) :
    ∀ (ws : List String) (idx : Nat), allObjsFrom outs ws idx = true →
    (runFormLoop outs ws idx).2.1 + (runFormLoop outs ws idx).2.2 = ws.length ∧
    (runFormLoop outs ws idx).1.length = ws.length ∧
    (runFormLoop outs ws idx).2.2 =
      ((runFormLoop outs ws idx).1.filter hasErrKey).length := by
  intro ws
  induction ws with
  | nil => intro idx _; exact ⟨rfl, rfl, rfl⟩
  | cons w ws ih =>
    intro idx h
    simp only [allObjsFrom, Bool.and_eq_true] at h
    obtain ⟨h1, hrest⟩ := h
    have IH := ih (idx + 1) hrest
    obtain ⟨IH1, IH2, IH3⟩ := IH
    simp only [runFormLoop]
    cases ho : interactive_get_pronunciation w (outs idx) with
    | obj kvs =>
      by_cases hk : (getKey kvs "error").isSome
      · have hek : hasErrKey (Json.obj kvs) = true := by simp [hasErrKey, hk]
        simp [errorIn, if_pos hk, List.filter_cons, hek]
        omega
      · have hek : hasErrKey (Json.obj kvs) = false := by simp [hasErrKey, hk]
        simp [errorIn, hk, List.filter_cons, hek]
        omega
    | null => rw [ho] at h1; simp at h1
    | bool b => rw [ho] at h1; simp at h1
    | num m e => rw [ho] at h1; simp at h1
    | str s => rw [ho] at h1; simp at h1
    | arr xs => rw [ho] at h1; simp at h1

/-! ## Claim C1 -/

/-- Claim C1 fails as stated: in the batch variant (`get_accent_word.py`)
there is no try/except around `requests.post`, so a connection error raised
by the HTTP call propagates out of `get_pronunciation` instead of being
returned as a PronunciationError value. -/
theorem c1_batch_raises_counterexample :
    batch_get_pronunciation "toilet"
      (HttpOutcome.raises (PyExn.connectionError "connection refused")) =
    Except.error (PyExn.connectionError "connection refused") := rfl

/-- Claim C1, amended: the interactive variant contains every per-word
failure as returned data (an object with an `error` key); the batch variant
contains only the non-200 transport case as data, and re-raises any
exception thrown by the HTTP call. -/
theorem c1_amended_failure_containment (w body : String) (status : Nat)
    (out : HttpOutcome) (e : PyExn) :
    (successParse out = none →
      hasErrKey (interactive_get_pronunciation w out) = true) ∧
    batch_get_pronunciation w (HttpOutcome.raises e) = Except.error e ∧
    (status ≠ 200 →
      batch_get_pronunciation w (HttpOutcome.response status body) =
        Except.ok (Json.obj
          [("error", Json.str ("API request failed with status " ++ toString status)),
           ("details", Json.str body)])) := by
  refine ⟨fun h => (interactive_fail_shape w out h).1, rfl, fun hs => ?_⟩
  simp only [batch_get_pronunciation, if_neg hs]

/-- Witness for the amended C1 at concrete inputs: a timeout outcome and a
500 response. -/
theorem c1_amended_failure_containment_witness :
    hasErrKey (interactive_get_pronunciation "toilet"
      (HttpOutcome.raises PyExn.timeout)) = true ∧
    batch_get_pronunciation "toilet" (HttpOutcome.raises PyExn.timeout) =
      Except.error PyExn.timeout ∧
    batch_get_pronunciation "toilet" (HttpOutcome.response 500 "internal error") =
      Except.ok (Json.obj
        [("error", Json.str "API request failed with status 500"),
         ("details", Json.str "internal error")]) :=
  ⟨(c1_amended_failure_containment "toilet" "internal error" 500
      (HttpOutcome.raises PyExn.timeout) PyExn.timeout).1 rfl,
   (c1_amended_failure_containment "toilet" "internal error" 500
      (HttpOutcome.raises PyExn.timeout) PyExn.timeout).2.1,
   (c1_amended_failure_containment "toilet" "internal error" 500
      (HttpOutcome.raises PyExn.timeout) PyExn.timeout).2.2 (by decide)⟩

/-! ## Claim C2 -/

/-- Claim C2 fails as stated: when the completion text is the valid JSON
object with single key `foo`, the fetcher returns it as-is — a value
populating none of `word`, `pronunciation`, `pronunciation_telugu` and no
`error` key, hence missing both documented shapes. -/
theorem c2_shape_counterexample :
    interactive_get_pronunciation "toilet" (HttpOutcome.response 200 bodyFoo) =
      Json.obj [("foo", Json.num 1 0)] ∧
    hasKeyJ (interactive_get_pronunciation "toilet"
      (HttpOutcome.response 200 bodyFoo)) "word" = false ∧
    hasKeyJ (interactive_get_pronunciation "toilet"
      (HttpOutcome.response 200 bodyFoo)) "pronunciation" = false ∧
    hasKeyJ (interactive_get_pronunciation "toilet"
      (HttpOutcome.response 200 bodyFoo)) "pronunciation_telugu" = false ∧
    hasKeyJ (interactive_get_pronunciation "toilet"
      (HttpOutcome.response 200 bodyFoo)) "error" = false :=
  ⟨rfl, rfl, rfl, rfl, rfl⟩

/-- Claim C2, amended: the interactive fetcher returns exactly one value —
on the success path the parsed JSON exactly as decoded (with no validation
of its shape), and on every other path an object with the `error` key
populated. -/
theorem c2_amended_result_shape (w : String) (out : HttpOutcome) :
    (∃ j, successParse out = some j ∧ interactive_get_pronunciation w out = j) ∨
    hasErrKey (interactive_get_pronunciation w out) = true := by
  cases hsp : successParse out with
  | some j => exact Or.inl ⟨j, rfl, interactive_success_shape w out j hsp⟩
  | none => exact Or.inr (interactive_fail_shape w out hsp).1

/-! ## Claim C3 -/

/-- Claim C3 fails as stated: the batch variant's `requests.post` call
(`get_accent_word.py` line 50) passes no `timeout=` argument at all, so that
outbound request carries no request-level timeout bound. -/
theorem c3_timeout_counterexample :
    (batchRequest "key" "toilet").timeoutSeconds = none := rfl

/-- Claim C3, amended: only the interactive variant's request carries the
30-second timeout; the batch variant's request carries none. -/
theorem c3_amended_timeouts (apiKey w : String) :
    (interactiveRequest apiKey w).timeoutSeconds = some 30 ∧
    (batchRequest apiKey w).timeoutSeconds = none :=
  ⟨rfl, rfl⟩

/-! ## Claim C4 -/

/-- Claim C4 fails in its final clause: the configuration error is not the
only failure that can be fatal to the whole process — with the API key
present, a connection error raised during the first batch fetch aborts the
whole batch run (and it is not the ValueError of the configuration
check). -/
theorem c4_fatal_counterexample :
    batchMain (some "key")
      (fun _ => HttpOutcome.raises (PyExn.connectionError "refused")) =
      Except.error (PyExn.connectionError "refused") ∧
    PyExn.connectionError "refused" ≠ PyExn.valueError
      "API_KEY not found in environment variables. Please set it in the .env file." :=
  ⟨rfl, by decide⟩

/-- Claim C4, amended: when API_KEY is absent the batch script raises the
ValueError before any fetch and the interactive app halts before rendering
the form; however, in the batch variant a raised network failure is also
fatal to the process, so the configuration error is only the interactive
variant's sole fatal failure. -/
theorem c4_amended_startup_gating (outs : String → HttpOutcome) (k : String) :
    batchMain none outs = Except.error (PyExn.valueError
      "API_KEY not found in environment variables. Please set it in the .env file.") ∧
    interactiveStartup none =
      UiState.halted "API_KEY not found. Please contact the administrator." ∧
    batchMain (some k) (fun _ => HttpOutcome.raises PyExn.timeout) =
      Except.error PyExn.timeout :=
  ⟨rfl, rfl, rfl⟩

/-! ## Claim C5 -/

/-- Claim C5: when the 200 response's completion text does not parse as JSON
after cleanup, both fetcher variants return a PronunciationError whose
`error` names the JSON parse failure and whose `raw_output` is the original
completion text, exactly as received and before any stripping. -/
theorem c5_raw_output_preserved (w body t : String) (bj : Json)
    (h1 : parseJson body = some bj)
    (h2 : extractChoiceText bj = some t)
    (h3 : parseJson (cleanText t) = none) :
    interactive_get_pronunciation w (HttpOutcome.response 200 body) =
      Json.obj [("error", Json.str "Failed to parse JSON from LLM output"),
                ("raw_output", Json.str t), ("word", Json.str w)] ∧
    batch_get_pronunciation w (HttpOutcome.response 200 body) =
      Except.ok (Json.obj
        [("error", Json.str "Failed to parse JSON from LLM output"),
         ("raw_output", Json.str t)]) := by
  constructor
  · simp only [interactive_get_pronunciation, if_pos rfl, h1, h2, h3]
    rfl
  · simp only [batch_get_pronunciation, if_pos rfl, h1, h2, h3]
    rfl

/-- Witness for C5 at the completion text `not json at all`. -/
theorem c5_raw_output_preserved_witness :
    interactive_get_pronunciation "toilet" (HttpOutcome.response 200 bodyNotJson) =
      Json.obj [("error", Json.str "Failed to parse JSON from LLM output"),
                ("raw_output", Json.str "not json at all"),
                ("word", Json.str "toilet")] ∧
    batch_get_pronunciation "toilet" (HttpOutcome.response 200 bodyNotJson) =
      Except.ok (Json.obj
        [("error", Json.str "Failed to parse JSON from LLM output"),
         ("raw_output", Json.str "not json at all")]) :=
  c5_raw_output_preserved "toilet" bodyNotJson "not json at all"
    (Json.obj [("choices", Json.arr [Json.obj [("text", Json.str "not json at all")]])])
    rfl rfl rfl

/-! ## Claim C6 -/

/-- Claim C6: the cleanup step (strip whitespace, strip backtick fencing,
strip whitespace) is the identity on every string with no surrounding
whitespace or fencing. -/
theorem c6_cleanup_identity (s : String) (h : edgeClean s = true) :
    cleanText s = s := by
  unfold edgeClean at h
  rw [Bool.and_eq_true] at h
  obtain ⟨hh, hl⟩ := h
  have hHead : ∀ c, s.data.head? = some c → isPyWs c = false ∧ isBk c = false := by
    intro c hc
    rw [hc] at hh
    rw [Bool.and_eq_true] at hh
    exact ⟨by simpa using hh.1, by simpa using hh.2⟩
  have hLast : ∀ c, s.data.getLast? = some c → isPyWs c = false ∧ isBk c = false := by
    intro c hc
    rw [hc] at hl
    rw [Bool.and_eq_true] at hl
    exact ⟨by simpa using hl.1, by simpa using hl.2⟩
  have e1 : pyStrip s = s :=
    stripIf_id isPyWs s (fun c hc => (hHead c hc).1) (fun c hc => (hLast c hc).1)
  have e2 : stripBk s = s :=
    stripIf_id isBk s (fun c hc => (hHead c hc).2) (fun c hc => (hLast c hc).2)
  show pyStrip (stripBk (pyStrip s)) = s
  rw [e1, e2, e1]

/-- Witness for C6 on an already-clean JSON string. -/
theorem c6_cleanup_identity_witness :
    edgeClean "\x7b\"word\": \"toilet\"\x7d" = true ∧
    cleanText "\x7b\"word\": \"toilet\"\x7d" = "\x7b\"word\": \"toilet\"\x7d" :=
  ⟨rfl, c6_cleanup_identity "\x7b\"word\": \"toilet\"\x7d" rfl⟩

/-! ## Claim C7 -/

/-- Claim C7: the input-splitting step splits on commas, trims each piece
and discards empty pieces — `"toilet, computer, water"` yields exactly those
three words, and an input of only separators and whitespace yields the empty
list, in which case the form warns and makes zero fetcher calls. -/
theorem c7_split_and_empty_input :
    parseWords "toilet, computer, water" = ["toilet", "computer", "water"] ∧
    parseWords " , ,  " = [] ∧
    ∀ outs : Nat → HttpOutcome,
      (formRun " , ,  " outs).warned = true ∧
      (formRun " , ,  " outs).fetchCalls = 0 ∧
      (formRun " , ,  " outs).outputs = [] :=
  ⟨rfl, rfl, fun _ => ⟨rfl, rfl, rfl⟩⟩

/-! ## Claim C8 -/

/-- Claim C8: the cleanup removes ALL leading and trailing backticks (the
character-set semantics of Python's `strip`), not only exact triple fences:
after the backtick-stripping stage no leading or trailing backtick remains,
the cleanup chain is exactly whitespace-strip, backtick-strip,
whitespace-strip — and consequently a completion wrapped in single backticks
around a JSON object still parses to that object. -/
theorem c8_strip_all_backticks :
    (∀ s : String,
      (∀ c, (stripBk (pyStrip s)).data.head? = some c → isBk c = false) ∧
      (∀ c, (stripBk (pyStrip s)).data.getLast? = some c → isBk c = false)) ∧
    (∀ s : String, cleanText s = pyStrip (stripBk (pyStrip s))) ∧
    interactive_get_pronunciation "apple" (HttpOutcome.response 200 bodySingleBk) =
      Json.obj [("a", Json.num 1 0)] :=
  ⟨fun s => stripIf_noEdges isBk (pyStrip s), fun _ => rfl, rfl⟩

/-- Witness for C8: the edges of the backtick-stripped form of a
single-backtick-fenced string are not backticks. -/
theorem c8_strip_all_backticks_witness :
    isBk 'a' = false ∧
    interactive_get_pronunciation "apple" (HttpOutcome.response 200 bodySingleBk) =
      Json.obj [("a", Json.num 1 0)] :=
  ⟨(c8_strip_all_backticks.1 "\x60abc\x60").1 'a' rfl,
   c8_strip_all_backticks.2.2⟩

/-! ## Claim C9 -/

/-- Claim C9: in the interactive variant, every PronunciationError — from a
non-200 status, a timeout, a connection error, a parse failure, or an
unexpected exception — carries a `word` field equal to the word being
processed. -/
theorem c9_error_word_field (w : String) (out : HttpOutcome)
    (h : successParse out = none) :
    jsonWordField (interactive_get_pronunciation w out) = some (Json.str w) :=
  (interactive_fail_shape w out h).2

/-- Witness for C9 at a timeout outcome. -/
theorem c9_error_word_field_witness :
    jsonWordField (interactive_get_pronunciation "water"
      (HttpOutcome.raises PyExn.timeout)) = some (Json.str "water") :=
  c9_error_word_field "water" (HttpOutcome.raises PyExn.timeout) rfl

/-! ## Claim C10 -/

/-- Claim C10 fails as stated: when the completion text for the single word
`woo` is the bare number `42`, the fetched value is a Python int, the
membership test `"error" in output` raises TypeError, the loop's catch-all
appends an extra error record after the already-appended output, and the
result list has two entries for one word — so the counters cannot satisfy
the claimed chain of equalities. -/
theorem c10_counters_counterexample :
    ¬ ((formRun "woo" (fun _ => HttpOutcome.response 200 body42)).successful +
        (formRun "woo" (fun _ => HttpOutcome.response 200 body42)).failed =
          (parseWords "woo").length ∧
       (parseWords "woo").length =
          (formRun "woo" (fun _ => HttpOutcome.response 200 body42)).outputs.length ∧
       (formRun "woo" (fun _ => HttpOutcome.response 200 body42)).failed =
          ((formRun "woo" (fun _ => HttpOutcome.response 200 body42)).outputs.filter
            hasErrKey).length) := by
  intro h
  have h2 := h.2.1
  rw [show (parseWords "woo").length = 1 from rfl] at h2
  rw [show (formRun "woo" (fun _ => HttpOutcome.response 200 body42)).outputs.length = 2
    from rfl] at h2
  exact absurd h2 (by decide)

/-- Claim C10, amended: whenever every value returned by the fetcher during
the run is a JSON object (so the membership test cannot raise), the
counters displayed after processing a non-empty word list satisfy
successes + failures = number of words = number of outputs, and the failure
counter equals the number of outputs carrying an `error` key. -/
theorem c10_amended_counters (inputStr : String) (outs : Nat → HttpOutcome)
    (hne : parseWords inputStr ≠ [])
    (hobj : allObjsFrom outs (parseWords inputStr) 0 = true) :
    (formRun inputStr outs).successful + (formRun inputStr outs).failed =
      (parseWords inputStr).length ∧
    (parseWords inputStr).length = (formRun inputStr outs).outputs.length ∧
    (formRun inputStr outs).failed =
      ((formRun inputStr outs).outputs.filter hasErrKey).length := by
  obtain ⟨i1, i2, i3⟩ := runFormLoop_invariant outs (parseWords inputStr) 0 hobj
  have hne' : (parseWords inputStr).isEmpty = false := by
    cases hw : parseWords inputStr with
    | nil => exact absurd hw hne
    | cons a as => rfl
  simp only [formRun, hne', Bool.false_eq_true, if_false]
  exact ⟨i1, i2.symm, i3⟩

/-- Witness for the amended C10: two words, both fetches time out, both
results are error objects. -/
theorem c10_amended_counters_witness :
    (formRun "a, b" (fun _ => HttpOutcome.raises PyExn.timeout)).successful +
      (formRun "a, b" (fun _ => HttpOutcome.raises PyExn.timeout)).failed =
        (parseWords "a, b").length ∧
    (parseWords "a, b").length =
      (formRun "a, b" (fun _ => HttpOutcome.raises PyExn.timeout)).outputs.length ∧
    (formRun "a, b" (fun _ => HttpOutcome.raises PyExn.timeout)).failed =
      ((formRun "a, b" (fun _ => HttpOutcome.raises PyExn.timeout)).outputs.filter
        hasErrKey).length :=
  c10_amended_counters "a, b" (fun _ => HttpOutcome.raises PyExn.timeout)
    (by decide) rfl
